import Mathlib

/-!
Verification of the sampling subsystem of `selena` (src/include/random.hpp).

The two sampler classes `random_prng` and `random_trng` expose four static
operations each: a single pick from a `std::vector`, `count` picks from a
`std::vector`, a single pick from a `std::array`, and `Count` picks from a
`std::array`.  Each operation draws uniformly distributed indices in
`[0, length-1]` from a per-thread engine through a
`std::uniform_int_distribution<size_t>`.

Embedding choices:
* The engine (`std::mt19937_64` for the prng, `std::random_device` for the
  trng) is modelled as a `Gen`: an infinite stream of raw outputs together
  with a read position.  A draw consumes the value at the current position
  and advances the position, which lets theorems talk about "the same stream
  of generator outputs" and about whether a call touched the engine at all.
* `std::uniform_int_distribution<size_t>{lo, hi}` applied to one engine
  output is modelled by `uniformInt lo hi raw`, a pure range reduction of a
  single raw output into the closed interval `[lo, hi]`.  The distribution
  object carries no state relevant to these claims, so it is a pure
  function of its two bounds.
* `std::vector<T>` and `std::array<T, N>` are both modelled as `List T`
  (for the array, the list's length is the compile-time `N`); the
  value-initialized `T` produced by `return {}` is `default` of an
  `Inhabited` instance, and a value-initialized `std::array<T, Count>` is
  `List.replicate Count default`.
-/

namespace Selena

/-- Engine state: an infinite stream of raw generator outputs and the
position of the next unread output. -/
structure Gen where
  stream : Nat → Nat
  pos : Nat

/-- Consume one raw output from the engine, advancing its position. -/
def Gen.next (g : Gen) : Nat × Gen :=
  (g.stream g.pos, ⟨g.stream, g.pos + 1⟩)

/-- `std::uniform_int_distribution<size_t>{lo, hi}` applied to one raw
engine output: reduce the output into the closed interval `[lo, hi]`. -/
def uniformInt (lo hi raw : Nat) : Nat :=
  lo + raw % (hi + 1 - lo)

/-- The draw loop shared by the multi-draw operations: the distribution
`dist` was constructed before the loop, and each iteration consumes one
engine output, reduces it to an index and appends the element at that
index (`ret_vec.push_back(vec[distribution(engine)])` resp.
`ret_arr[i] = arr[distribution(engine)]`). -/
def drawLoop {T : Type} [Inhabited T] (vec : List T) (dist : Nat → Nat) :
    Nat → Gen → List T × Gen
  | 0, g => ([], g)
  | n + 1, g =>
    let p := g.next
    let x := vec.getD (dist p.1) default
    let r := drawLoop vec dist n p.2
    (x :: r.1, r.2)

namespace random_prng

variable {T : Type} [Inhabited T]

/-- `random_prng::random(const std::vector<T>&)`: empty guard returning a
value-initialized `T`, else one uniform index into `[0, size-1]`. -/
def random (vec : List T) (g : Gen) : T × Gen :=
  if vec.isEmpty then (default, g)
  else
    let p := g.next
    (vec.getD (uniformInt 0 (vec.length - 1) p.1) default, p.2)

/-- `random_prng::random(const std::vector<T>&, size_t count)`: guards for
empty input and zero count, deferral to the single-pick overload at
`count == 1`, else one distribution constructed before the loop and
`count` draws appended in draw order. -/
def random_n (vec : List T) (count : Nat) (g : Gen) : List T × Gen :=
  if vec.isEmpty then ([], g)
  else if count = 0 then ([], g)
  else if count = 1 then
    let p := random vec g
    ([p.1], p.2)
  else
    drawLoop vec (uniformInt 0 (vec.length - 1)) count g

/-- `random_prng::random(const std::array<T, N>&)`: the `std::array` is the
list `arr` (of length `N`); empty guard, else one uniform index. -/
def random_arr (arr : List T) (g : Gen) : T × Gen :=
  if arr.isEmpty then (default, g)
  else
    let p := g.next
    (arr.getD (uniformInt 0 (arr.length - 1) p.1) default, p.2)

/-- `random_prng::random<Count>(const std::array<T, N>&)`: on an empty
source array `return {}` yields a value-initialized `std::array<T, Count>`
(`Count` copies of `default`); at `Count == 0` an empty array; else
`Count` draws filling the result in draw order. -/
def random_n_arr (Count : Nat) (arr : List T) (g : Gen) : List T × Gen :=
  if arr.isEmpty then (List.replicate Count default, g)
  else if Count = 0 then ([], g)
  else
    drawLoop arr (uniformInt 0 (arr.length - 1)) Count g

end random_prng

namespace random_trng

variable {T : Type} [Inhabited T]

/-- `random_trng::random(const std::vector<T>&)`: same body as the prng
overload, with the draw served by `_impl_trng_engine()`. -/
def random (vec : List T) (g : Gen) : T × Gen :=
  if vec.isEmpty then (default, g)
  else
    let p := g.next
    (vec.getD (uniformInt 0 (vec.length - 1) p.1) default, p.2)

/-- `random_trng::random(const std::vector<T>&, size_t count)`: same guards
and loop as the prng overload, with `std::random_device& engine`. -/
def random_n (vec : List T) (count : Nat) (g : Gen) : List T × Gen :=
  if vec.isEmpty then ([], g)
  else if count = 0 then ([], g)
  else if count = 1 then
    let p := random vec g
    ([p.1], p.2)
  else
    drawLoop vec (uniformInt 0 (vec.length - 1)) count g

/-- `random_trng::random(const std::array<T, N>&)`: same body as the prng
overload, with the draw served by `_impl_trng_engine()`. -/
def random_arr (arr : List T) (g : Gen) : T × Gen :=
  if arr.isEmpty then (default, g)
  else
    let p := g.next
    (arr.getD (uniformInt 0 (arr.length - 1) p.1) default, p.2)

/-- `random_trng::random<Count>(const std::array<T, N>&)`: same guards and
loop as the prng overload, with `std::random_device& engine`. -/
def random_n_arr (Count : Nat) (arr : List T) (g : Gen) : List T × Gen :=
  if arr.isEmpty then (List.replicate Count default, g)
  else if Count = 0 then ([], g)
  else
    drawLoop arr (uniformInt 0 (arr.length - 1)) Count g

end random_trng

namespace random_prng

/-- Modelled from the spec, for comparison with `random_prng.random_n`: the
draw loop of the variant that recreates the distribution object for each
element, instead of constructing it once before the loop. -/
def drawLoopFresh {T : Type} [Inhabited T] (vec : List T) :
    Nat → Gen → List T × Gen
  | 0, g => ([], g)
  | n + 1, g =>
    let dist := uniformInt 0 (vec.length - 1)
    let p := g.next
    let x := vec.getD (dist p.1) default
    let r := drawLoopFresh vec n p.2
    (x :: r.1, r.2)

/-- Modelled from the spec, for comparison with `random_prng.random_n`: the
multi-draw operation as it would read if the distribution object were
constructed anew for every element of the result. -/
def random_n_fresh {T : Type} [Inhabited T] (vec : List T) (count : Nat)
    (g : Gen) : List T × Gen :=
  if vec.isEmpty then ([], g)
  else if count = 0 then ([], g)
  else if count = 1 then
    let p := random vec g
    ([p.1], p.2)
  else
    drawLoopFresh vec count g

end random_prng

/-- A concrete engine for evaluating the operations: the all-zero output
stream, read from position 0. -/
def gen0 : Gen := ⟨fun _ => 0, 0⟩

/- Helper lemmas about the uniform index reduction and the draw loop. -/

theorem uniformInt_lt {L : Nat} (hL : 0 < L) (raw : Nat) :
    uniformInt 0 (L - 1) raw < L := by
  unfold uniformInt
  rw [Nat.zero_add, Nat.sub_zero, Nat.sub_add_cancel hL]
  exact Nat.mod_lt _ hL

theorem drawLoop_fst {T : Type} [Inhabited T] (vec : List T)
    (dist : Nat → Nat) (n : Nat) (g : Gen) :
    (drawLoop vec dist n g).1 =
      (List.range n).map
        (fun i => vec.getD (dist (g.stream (g.pos + i))) default) := by
  induction n generalizing g with
  | zero => simp [drawLoop]
  | succ n ih =>
    rw [List.range_succ_eq_map, List.map_cons, List.map_map]
    simp only [drawLoop, Gen.next]
    rw [ih]
    have harg : ∀ i : Nat, g.pos + 1 + i = g.pos + Nat.succ i := by
      intro i; omega
    simp [harg, Function.comp]

theorem drawLoop_snd {T : Type} [Inhabited T] (vec : List T)
    (dist : Nat → Nat) (n : Nat) (g : Gen) :
    (drawLoop vec dist n g).2 = ⟨g.stream, g.pos + n⟩ := by
  induction n generalizing g with
  | zero => simp [drawLoop]
  | succ n ih =>
    simp only [drawLoop, Gen.next]
    rw [ih]
    have harg : g.pos + 1 + n = g.pos + (n + 1) := by omega
    rw [harg]

theorem drawLoop_length {T : Type} [Inhabited T] (vec : List T)
    (dist : Nat → Nat) (n : Nat) (g : Gen) :
    (drawLoop vec dist n g).1.length = n := by
  rw [drawLoop_fst, List.length_map, List.length_range]

theorem getD_mem_of_lt {T : Type} [Inhabited T] {vec : List T} {i : Nat}
    (h : i < vec.length) : vec.getD i default ∈ vec := by
  rw [List.getD_eq_getElem vec default h]
  exact List.getElem_mem h

theorem drawLoop_mem {T : Type} [Inhabited T] {vec : List T}
    {dist : Nat → Nat} (hd : ∀ raw, dist raw < vec.length) (n : Nat)
    (g : Gen) : ∀ x ∈ (drawLoop vec dist n g).1, x ∈ vec := by
  intro x hx
  rw [drawLoop_fst] at hx
  obtain ⟨i, _, rfl⟩ := List.mem_map.mp hx
  exact getD_mem_of_lt (hd _)

theorem drawLoopFresh_eq {T : Type} [Inhabited T] (vec : List T) (n : Nat)
    (g : Gen) :
    random_prng.drawLoopFresh vec n g =
      drawLoop vec (uniformInt 0 (vec.length - 1)) n g := by
  induction n generalizing g with
  | zero => simp [random_prng.drawLoopFresh, drawLoop]
  | succ n ih => simp [random_prng.drawLoopFresh, drawLoop, ih]

theorem isEmpty_false_of_ne_nil {T : Type} {vec : List T} (hv : vec ≠ []) :
    vec.isEmpty = false := by
  cases vec with
  | nil => exact absurd rfl hv
  | cons a l => rfl

/- Claim theorems. -/

/-- C1: for every non-empty sequence and every count `c ≥ 2`, the multi-draw
operation of each sampler returns exactly `c` elements, each an element of
the input, and the result lists the drawn elements in draw order (the
element selected by the `i`-th engine output consumed is at position `i`). -/
theorem pick_n_length_mem_order {T : Type} [Inhabited T] (vec : List T)
    (c : Nat) (g : Gen) (hv : vec ≠ []) (hc : 2 ≤ c) :
    (random_prng.random_n vec c g).1.length = c
    ∧ (∀ x ∈ (random_prng.random_n vec c g).1, x ∈ vec)
    ∧ (random_prng.random_n vec c g).1 =
        (List.range c).map
          (fun i => vec.getD (uniformInt 0 (vec.length - 1)
            (g.stream (g.pos + i))) default)
    ∧ (random_trng.random_n vec c g).1.length = c
    ∧ (∀ x ∈ (random_trng.random_n vec c g).1, x ∈ vec)
    ∧ (random_trng.random_n vec c g).1 =
        (List.range c).map
          (fun i => vec.getD (uniformInt 0 (vec.length - 1)
            (g.stream (g.pos + i))) default) := by
  have hL : 0 < vec.length := List.length_pos.mpr hv
  have hE : vec.isEmpty = false := isEmpty_false_of_ne_nil hv
  have h0 : c ≠ 0 := by omega
  have h1 : c ≠ 1 := by omega
  have hp : random_prng.random_n vec c g =
      drawLoop vec (uniformInt 0 (vec.length - 1)) c g := by
    simp [random_prng.random_n, hE, h0, h1]
  have ht : random_trng.random_n vec c g =
      drawLoop vec (uniformInt 0 (vec.length - 1)) c g := by
    simp [random_trng.random_n, hE, h0, h1]
  rw [hp, ht]
  exact ⟨drawLoop_length vec _ c g,
    drawLoop_mem (fun raw => uniformInt_lt hL raw) c g,
    drawLoop_fst vec _ c g,
    drawLoop_length vec _ c g,
    drawLoop_mem (fun raw => uniformInt_lt hL raw) c g,
    drawLoop_fst vec _ c g⟩

/-- Witness for C1 at the sequence `[1, 2, 3]`, count `2` and the all-zero
engine `gen0`. -/
theorem pick_n_length_mem_order_witness :
    (([1, 2, 3] : List Nat) ≠ [] ∧ 2 ≤ 2)
    ∧ ((random_prng.random_n ([1, 2, 3] : List Nat) 2 gen0).1.length = 2
    ∧ (∀ x ∈ (random_prng.random_n ([1, 2, 3] : List Nat) 2 gen0).1,
        x ∈ ([1, 2, 3] : List Nat))
    ∧ (random_prng.random_n ([1, 2, 3] : List Nat) 2 gen0).1 =
        (List.range 2).map
          (fun i => ([1, 2, 3] : List Nat).getD
            (uniformInt 0 (([1, 2, 3] : List Nat).length - 1)
              (gen0.stream (gen0.pos + i))) default)
    ∧ (random_trng.random_n ([1, 2, 3] : List Nat) 2 gen0).1.length = 2
    ∧ (∀ x ∈ (random_trng.random_n ([1, 2, 3] : List Nat) 2 gen0).1,
        x ∈ ([1, 2, 3] : List Nat))
    ∧ (random_trng.random_n ([1, 2, 3] : List Nat) 2 gen0).1 =
        (List.range 2).map
          (fun i => ([1, 2, 3] : List Nat).getD
            (uniformInt 0 (([1, 2, 3] : List Nat).length - 1)
              (gen0.stream (gen0.pos + i))) default)) :=
  ⟨⟨by decide, by decide⟩,
    pick_n_length_mem_order [1, 2, 3] 2 gen0 (by decide) (by decide)⟩

/-- C2: for every non-empty sequence, the single-pick operations of both
samplers return an element of the input, and the drawn index lies strictly
below the length (so within `[0, length-1]` and in bounds). -/
theorem pick_one_mem {T : Type} [Inhabited T] (vec : List T) (g : Gen)
    (hv : vec ≠ []) :
    (random_prng.random vec g).1 ∈ vec
    ∧ (random_prng.random_arr vec g).1 ∈ vec
    ∧ (random_trng.random vec g).1 ∈ vec
    ∧ uniformInt 0 (vec.length - 1) (g.stream g.pos) < vec.length := by
  have hL : 0 < vec.length := List.length_pos.mpr hv
  have hE : vec.isEmpty = false := isEmpty_false_of_ne_nil hv
  refine ⟨?_, ?_, ?_, uniformInt_lt hL _⟩ <;>
    · simp only [random_prng.random, random_prng.random_arr,
        random_trng.random, hE, Bool.false_eq_true, if_false, Gen.next]
      exact getD_mem_of_lt (uniformInt_lt hL _)

/-- Witness for C2 at the sequence `[5, 6]` and the all-zero engine. -/
theorem pick_one_mem_witness :
    (([5, 6] : List Nat) ≠ [])
    ∧ ((random_prng.random ([5, 6] : List Nat) gen0).1 ∈ ([5, 6] : List Nat)
    ∧ (random_prng.random_arr ([5, 6] : List Nat) gen0).1 ∈
        ([5, 6] : List Nat)
    ∧ (random_trng.random ([5, 6] : List Nat) gen0).1 ∈ ([5, 6] : List Nat)
    ∧ uniformInt 0 (([5, 6] : List Nat).length - 1)
        (gen0.stream gen0.pos) < ([5, 6] : List Nat).length) :=
  ⟨by decide, pick_one_mem [5, 6] gen0 (by decide)⟩

/-- C3: an empty dynamic sequence makes `pick_one` return the element
type's default value and makes `pick_n` return an empty result for every
count, and a zero count makes `pick_n` return an empty result for every
sequence; each call also leaves the engine untouched and, being a total
function, signals no error. Both samplers. -/
theorem empty_input_default {T : Type} [Inhabited T] (vec : List T)
    (c : Nat) (g : Gen) :
    random_prng.random ([] : List T) g = (default, g)
    ∧ random_prng.random_n ([] : List T) c g = ([], g)
    ∧ random_prng.random_n vec 0 g = ([], g)
    ∧ random_trng.random ([] : List T) g = (default, g)
    ∧ random_trng.random_n ([] : List T) c g = ([], g)
    ∧ random_trng.random_n vec 0 g = ([], g) := by
  refine ⟨rfl, rfl, ?_, rfl, rfl, ?_⟩ <;>
    cases vec <;> simp [random_prng.random_n, random_trng.random_n]

/-- C4: at count `1` the multi-draw operation defers to the single-pick
operation: from the same engine state it returns the one-element list of
the value `pick_one` returns, leaving the engine in the same state
`pick_one` leaves it in. Both samplers. -/
theorem pick_n_one_defers {T : Type} [Inhabited T] (vec : List T) (g : Gen)
    (hv : vec ≠ []) :
    random_prng.random_n vec 1 g =
      ([(random_prng.random vec g).1], (random_prng.random vec g).2)
    ∧ random_trng.random_n vec 1 g =
      ([(random_trng.random vec g).1], (random_trng.random vec g).2) := by
  have hE : vec.isEmpty = false := isEmpty_false_of_ne_nil hv
  constructor <;> simp [random_prng.random_n, random_trng.random_n, hE]

/-- Witness for C4 at the one-element sequence `[7]` and the all-zero
engine. -/
theorem pick_n_one_defers_witness :
    (([7] : List Nat) ≠ [])
    ∧ (random_prng.random_n ([7] : List Nat) 1 gen0 =
        ([(random_prng.random ([7] : List Nat) gen0).1],
          (random_prng.random ([7] : List Nat) gen0).2)
    ∧ random_trng.random_n ([7] : List Nat) 1 gen0 =
        ([(random_trng.random ([7] : List Nat) gen0).1],
          (random_trng.random ([7] : List Nat) gen0).2)) :=
  ⟨by decide, pick_n_one_defers [7] gen0 (by decide)⟩

/-- C5: constructing the uniform distribution once per multi-draw call and
reusing it across all draws returns exactly the same result, and leaves
the engine in exactly the same state, as the variant that recreates the
distribution object for each element. -/
theorem dist_reuse_no_effect {T : Type} [Inhabited T] (vec : List T)
    (c : Nat) (g : Gen) :
    random_prng.random_n_fresh vec c g = random_prng.random_n vec c g := by
  simp [random_prng.random_n_fresh, random_prng.random_n, drawLoopFresh_eq]

/-- C6: driven by the same stream of engine outputs from the same position,
each of the four `random_trng` operations returns exactly the result of
the corresponding `random_prng` operation: the two samplers differ only in
which engine backs the distribution. -/
theorem trng_matches_prng {T : Type} [Inhabited T] (vec arr : List T)
    (c k : Nat) (g1 g2 g3 g4 : Gen) :
    random_trng.random vec g1 = random_prng.random vec g1
    ∧ random_trng.random_n vec c g2 = random_prng.random_n vec c g2
    ∧ random_trng.random_arr arr g3 = random_prng.random_arr arr g3
    ∧ random_trng.random_n_arr k arr g4 = random_prng.random_n_arr k arr g4 :=
  ⟨rfl, rfl, rfl, rfl⟩

/-- C7: on a fixed-size sequence of length 0, the single-pick and the
`Count`-pick array operations of both samplers return the
default/value-initialized result and hand back the engine unchanged: no
engine output is consumed. -/
theorem fixed_empty_no_draw {T : Type} [Inhabited T] (k : Nat) (g : Gen) :
    random_prng.random_arr ([] : List T) g = (default, g)
    ∧ random_prng.random_n_arr k ([] : List T) g =
        (List.replicate k default, g)
    ∧ random_trng.random_arr ([] : List T) g = (default, g)
    ∧ random_trng.random_n_arr k ([] : List T) g =
        (List.replicate k default, g) :=
  ⟨rfl, rfl, rfl, rfl⟩

/-- C10: the fixed-size `Count`-pick operation applied to a length-0 source
array with `Count > 0` does not return a zero-length sequence: it returns
exactly `Count` elements, every one of them the value-initialized default,
for both samplers. -/
theorem fixed_pick_n_empty_source {T : Type} [Inhabited T] (k : Nat)
    (g : Gen) (hk : 0 < k) :
    (random_prng.random_n_arr k ([] : List T) g).1 =
        List.replicate k default
    ∧ (random_prng.random_n_arr k ([] : List T) g).1.length = k
    ∧ (random_prng.random_n_arr k ([] : List T) g).1 ≠ []
    ∧ (random_trng.random_n_arr k ([] : List T) g).1 =
        List.replicate k default
    ∧ (random_trng.random_n_arr k ([] : List T) g).1.length = k
    ∧ (random_trng.random_n_arr k ([] : List T) g).1 ≠ [] := by
  have hk0 : k ≠ 0 := by omega
  refine ⟨rfl, ?_, ?_, rfl, ?_, ?_⟩ <;>
    simp [random_prng.random_n_arr, random_trng.random_n_arr, hk0]

/-- Witness for C10 at element type `Nat`, count `2` and the all-zero
engine. -/
theorem fixed_pick_n_empty_source_witness :
    0 < 2
    ∧ ((random_prng.random_n_arr 2 ([] : List Nat) gen0).1 =
        List.replicate 2 default
    ∧ (random_prng.random_n_arr 2 ([] : List Nat) gen0).1.length = 2
    ∧ (random_prng.random_n_arr 2 ([] : List Nat) gen0).1 ≠ []
    ∧ (random_trng.random_n_arr 2 ([] : List Nat) gen0).1 =
        List.replicate 2 default
    ∧ (random_trng.random_n_arr 2 ([] : List Nat) gen0).1.length = 2
    ∧ (random_trng.random_n_arr 2 ([] : List Nat) gen0).1 ≠ []) :=
  ⟨by decide, fixed_pick_n_empty_source 2 gen0 (by decide)⟩

end Selena
